import Mathlib

/-!
Verification development for the image-alignment task of the focus-stack
repository (`src/task_align.cc`, class `Task_Align`).

Modelling conventions:
* `cv::Mat` raster buffers are modelled by `Img`: row-major lists of pixels,
  each pixel a list of 8-bit channel values (stored as `Nat`).
* C `float` arithmetic is modelled by exact rational arithmetic (`ℚ`);
  decimal literals such as `0.01` are rendered as the exact rationals they
  denote in the source text.
* The C cast `(int)f` truncates toward zero; it is modelled by `cvInt`.
* OpenCV library primitives (`cv::resize`, `cv::findTransformECC`,
  `cv::warpAffine`, `cv::solve`) are not part of this repository; they are
  abstracted as an oracle structure `CVOps`.  Every argument the source
  passes to them (interpolation mode, border mode, termination criteria,
  decomposition method, the inverse-map flag) is passed to the oracle, so
  theorems can talk about the exact invocations.
* `std::shared_ptr<ImgTask>` object identity is modelled by an `id` field on
  `ImgTask`; the short-circuit comparison `m_refcolor == m_srccolor`
  compares these ids.
* `cv::findTransformECC` throws when it fails to converge and
  `Task_Align::task` does not catch; this is modelled by the oracle
  returning `Option` and the task returning `none` (failed run).
* To state claims about which steps execute, the task also returns the list
  of algorithmic events it performed (`Event`), in order.
-/

/-- A raster buffer: `rows × cols` pixels, each a list of `channels` 8-bit
channel values, row-major.  Models `cv::Mat` of `CV_8U` / `CV_8UC3`. -/
structure Img where
  rows : Nat
  cols : Nat
  channels : Nat
  data : List (List (List Nat))
deriving DecidableEq

/-- `cv::Rect` (integer fields). -/
structure Rect where
  x : Int
  y : Int
  width : Int
  height : Int
deriving DecidableEq

/-- A 2×3 affine transformation matrix of floats (`m_transformation`). -/
structure Mat23 where
  a00 : ℚ
  a01 : ℚ
  a02 : ℚ
  a10 : ℚ
  a11 : ℚ
  a12 : ℚ
deriving DecidableEq

/-- Interpolation modes passed to OpenCV (`cv::INTER_*`). -/
inductive Interp where
  | nearest
  | linear
  | cubic
  | area
deriving DecidableEq

/-- Border extension modes passed to OpenCV (`cv::BORDER_*`). -/
inductive Border where
  | constant
  | replicate
  | reflect
deriving DecidableEq

/-- Matrix decomposition methods passed to `cv::solve` (`cv::DECOMP_*`). -/
inductive Decomp where
  | lu
  | svd
  | cholesky
  | qr
deriving DecidableEq

/-- The OpenCV primitives used by `Task_Align`, abstracted as oracles.
`resize` is `cv::resize` with scale factors, `resizeTo` is `cv::resize` to a
fixed destination size.  `findTransformECC` returns `none` when the solver
fails to converge (the C++ function throws).  `warpAffine` takes the source,
the transform, the destination size, the interpolation mode, the
`cv::WARP_INVERSE_MAP` flag, and the border mode.  `solve` takes the
coefficient matrix (list of rows), the right-hand side and the decomposition
method, and returns the solution vector. -/
structure CVOps where
  resize : Img → ℚ → Interp → Img
  resizeTo : Img → Nat → Nat → Interp → Img
  findTransformECC : Img → Img → Mat23 → Nat → ℚ → Img → Option Mat23
  warpAffine : Img → Mat23 → Nat → Nat → Interp → Bool → Border → Img
  solve : List (List ℚ) → List ℚ → Decomp → List ℚ

/-- An upstream image task (`std::shared_ptr<ImgTask>`): the `id` models the
pointer identity of the task object, `img` its published buffer. -/
structure ImgTask where
  id : Nat
  img : Img
deriving DecidableEq

/-- The crop-information dependency (`std::shared_ptr<Task_LoadImg>`):
its padded image and the original (pre-padding) size. -/
structure Task_LoadImg where
  img : Img
  orig_width : Nat
  orig_height : Nat
deriving DecidableEq

/-- The alignment flags used by `Task_Align`
(`FocusStack::align_flags_t`). -/
structure AlignFlags where
  no_contrast : Bool
  no_whitebalance : Bool
  full_resolution : Bool
deriving DecidableEq

/-- The dependencies handed to the `Task_Align` constructor. -/
structure AlignInputs where
  refgray : ImgTask
  refcolor : ImgTask
  srcgray : ImgTask
  srccolor : ImgTask
  initial_guess : Option Mat23
  cropinfo : Option Task_LoadImg
  flags : AlignFlags
deriving DecidableEq

/-- The mutable numeric state of a `Task_Align` object:
the affine transform `m_transformation`, the 5-coefficient contrast model
`m_contrast` (column vector `[constant, x, x², y, y²]`), the 6-coefficient
white-balance model `m_whitebalance` (column vector `[bb, bc, gb, gc, rb,
rc]`), and the region of interest `m_roi`. -/
structure AlignState where
  transformation : Mat23
  contrast : List ℚ
  whitebalance : List ℚ
  roi : Rect
deriving DecidableEq

/-- The dependency references held by the task object
(`m_refgray` … `m_cropinfo`). -/
structure DepRefs where
  refgray : Option ImgTask
  refcolor : Option ImgTask
  srcgray : Option ImgTask
  srccolor : Option ImgTask
  initial_guess : Option Mat23
  cropinfo : Option Task_LoadImg
deriving DecidableEq

/-- What a completed run leaves behind: the final numeric state, the
published result buffer `m_result`, and the dependency references. -/
structure Published where
  state : AlignState
  result : Option Img
  refs : DepRefs
deriving DecidableEq

/-- One enhanced-correlation-coefficient invocation, with every argument the
source hands to `cv::findTransformECC`, plus `tIn`, the value of
`m_transformation` on entry to `match_transform` (before the translation
components are multiplied by the scale ratio). -/
structure EccEvent where
  ref : Img
  src : Img
  tIn : Mat23
  init : Mat23
  count : Nat
  eps : ℚ
  mask : Img
deriving DecidableEq

/-- Algorithmic steps performed by a run of the task, in order. -/
inductive Event where
  | ecc : EccEvent → Event
  | fitContrast : Event
  | fitWhitebalance : Event
  | warpColor : Event
  | photometric : Event
deriving DecidableEq

/-- The ECC invocations of a trace, in order. -/
def eccEvents : List Event → List EccEvent
  | [] => []
  | Event.ecc e :: r => e :: eccEvents r
  | Event.fitContrast :: r => eccEvents r
  | Event.fitWhitebalance :: r => eccEvents r
  | Event.warpColor :: r => eccEvents r
  | Event.photometric :: r => eccEvents r

/-- The C cast `(int)q` on a float value: truncation toward zero. -/
def cvInt (q : ℚ) : Int := Int.tdiv q.num (q.den : Int)

/-- `std::min(255, std::max(0, i))`, stored into a `uint8_t`. -/
def clamp255 (i : Int) : Nat := (min 255 (max 0 i)).toNat

/-- Reads channel `c` of the pixel at row `y`, column `x`
(`img.at<uint8_t>(y, x)` / `img.at<cv::Vec3b>(y, x)[c]`). -/
def Img.px (img : Img) (y x c : Nat) : ℚ :=
  (((img.data.getD y []).getD x []).getD c 0 : ℚ)

/-- The sub-image view `img(rect)` (`cv::Mat::operator()(cv::Rect)`). -/
def Img.crop (img : Img) (r : Rect) : Img :=
  { rows := r.height.toNat
    cols := r.width.toNat
    channels := img.channels
    data := ((img.data.drop r.y.toNat).take r.height.toNat).map
      (fun row => (row.drop r.x.toNat).take r.width.toNat) }

/-- Scales a rectangle's four fields by a float ratio, truncating each to
`int` as the `cv::Rect` constructor does
(`cv::Rect(m_roi.x * scale_ratio, …)`). -/
def scaleRect (r : Rect) (s : ℚ) : Rect :=
  { x := cvInt ((r.x : ℚ) * s)
    y := cvInt ((r.y : ℚ) * s)
    width := cvInt ((r.width : ℚ) * s)
    height := cvInt ((r.height : ℚ) * s) }

/-- The binary mask: a `rows × cols` single-channel image that is 255 inside
`r` and 0 elsewhere (`mask = 0; mask(rect) = 255`). -/
def maskImg (rows cols : Nat) (r : Rect) : Img :=
  { rows := rows
    cols := cols
    channels := 1
    data := (List.range rows).map (fun (y : Nat) => (List.range cols).map (fun (x : Nat) =>
      [if r.x ≤ (x : Int) ∧ (x : Int) < r.x + r.width ∧
          r.y ≤ (y : Int) ∧ (y : Int) < r.y + r.height then 255 else 0])) }

/-- Multiplies the two translation components of the transform by the scale
ratio (`m_transformation.at<float>(0, 2) *= scale_ratio;` and row 1). -/
def scaleTranslation (t : Mat23) (s : ℚ) : Mat23 :=
  { t with a02 := t.a02 * s, a12 := t.a12 * s }

/-- Divides the two translation components of the transform by the scale
ratio (`m_transformation.at<float>(0, 2) /= scale_ratio;` and row 1). -/
def unscaleTranslation (t : Mat23) (s : ℚ) : Mat23 :=
  { t with a02 := t.a02 / s, a12 := t.a12 / s }

/-- The position-dependent contrast factor
`c = m_contrast(0) + xd*(m_contrast(1) + m_contrast(2)*xd)
   + yd*(m_contrast(3) + m_contrast(4)*yd)`
with `yd = (y - rows/2.0)/rows`, `xd = (x - cols/2.0)/cols`. -/
def contrastAt (contrast : List ℚ) (rows cols y x : Nat) : ℚ :=
  let yd : ℚ := ((y : ℚ) - (rows : ℚ) / 2) / (rows : ℚ)
  let xd : ℚ := ((x : ℚ) - (cols : ℚ) / 2) / (cols : ℚ)
  contrast.getD 0 0 + xd * (contrast.getD 1 0 + contrast.getD 2 0 * xd)
    + yd * (contrast.getD 3 0 + contrast.getD 4 0 * yd)

/-- One grayscale dither step (`task_align.cc` lines 306-311): compute the
float value `f = v * c`, store `min(255, max(0, (int)(f + delta)))`, and add
the residual `f - stored` to the carried `delta`. -/
def ditherGrayPx (c delta : ℚ) (v : Nat) : Nat × ℚ :=
  let f := (v : ℚ) * c
  let w := clamp255 (cvInt (f + delta))
  (w, delta + f - (w : ℚ))

/-- The inner `x` loop of the grayscale branch of
`Task_Align::apply_contrast_whitebalance`, carrying `delta` left to right. -/
def ditherGrayRow (contrast : List ℚ) (rows cols y : Nat) :
    Nat → ℚ → List (List Nat) → List (List Nat) × ℚ
  | _, delta, [] => ([], delta)
  | x, delta, px :: rest =>
    let c := contrastAt contrast rows cols y x
    let wd := ditherGrayPx c delta (px.getD 0 0)
    let out := ditherGrayRow contrast rows cols y (x + 1) wd.2 rest
    ([wd.1] :: out.1, out.2)

/-- The outer `y` loop of the grayscale branch; `delta` carries across row
boundaries (it is a single local variable for the whole image). -/
def ditherGrayRows (contrast : List ℚ) (rows cols : Nat) :
    Nat → ℚ → List (List (List Nat)) → List (List (List Nat)) × ℚ
  | _, delta, [] => ([], delta)
  | y, delta, row :: rest =>
    let rowOut := ditherGrayRow contrast rows cols y 0 delta row
    let restOut := ditherGrayRows contrast rows cols (y + 1) rowOut.2 rest
    (rowOut.1 :: restOut.1, restOut.2)

/-- The three float channel values computed for one color pixel
(`task_align.cc` lines 333-335): `v * c * gain + offset` with the channel's
white-balance pair, in BGR order. -/
def colorFloatPx (c : ℚ) (wb : List ℚ) (px : List Nat) : ℚ × ℚ × ℚ :=
  ((px.getD 0 0 : ℚ) * c * wb.getD 1 0 + wb.getD 0 0,
   (px.getD 1 0 : ℚ) * c * wb.getD 3 0 + wb.getD 2 0,
   (px.getD 2 0 : ℚ) * c * wb.getD 5 0 + wb.getD 4 0)

/-- One color dither step (`task_align.cc` lines 332-342): per channel, the
stored value is the truncated `float + delta` clamped to `[0, 255]`, and
each channel's residual `float - stored` is added to its own carried
`delta`. -/
def ditherColorPx (c : ℚ) (wb : List ℚ) (d : ℚ × ℚ × ℚ) (px : List Nat) :
    List Nat × (ℚ × ℚ × ℚ) :=
  let f := colorFloatPx c wb px
  let vb := clamp255 (cvInt (f.1 + d.1))
  let vg := clamp255 (cvInt (f.2.1 + d.2.1))
  let vr := clamp255 (cvInt (f.2.2 + d.2.2))
  ([vb, vg, vr],
   (d.1 + f.1 - (vb : ℚ), d.2.1 + f.2.1 - (vg : ℚ), d.2.2 + f.2.2 - (vr : ℚ)))

/-- The inner `x` loop of the RGB branch of
`Task_Align::apply_contrast_whitebalance`. -/
def ditherColorRow (contrast wb : List ℚ) (rows cols y : Nat) :
    Nat → ℚ × ℚ × ℚ → List (List Nat) → List (List Nat) × (ℚ × ℚ × ℚ)
  | _, d, [] => ([], d)
  | x, d, px :: rest =>
    let c := contrastAt contrast rows cols y x
    let wd := ditherColorPx c wb d px
    let out := ditherColorRow contrast wb rows cols y (x + 1) wd.2 rest
    (wd.1 :: out.1, out.2)

/-- The outer `y` loop of the RGB branch; the three `delta` accumulators
carry across row boundaries. -/
def ditherColorRows (contrast wb : List ℚ) (rows cols : Nat) :
    Nat → ℚ × ℚ × ℚ → List (List (List Nat)) → List (List (List Nat)) × (ℚ × ℚ × ℚ)
  | _, d, [] => ([], d)
  | y, d, row :: rest =>
    let rowOut := ditherColorRow contrast wb rows cols y 0 d row
    let restOut := ditherColorRows contrast wb rows cols (y + 1) rowOut.2 rest
    (rowOut.1 :: restOut.1, restOut.2)

/-- `Task_Align::apply_contrast_whitebalance`: grayscale images get the
contrast model only, color images get contrast and white balance; both use
error-diffusion dithering. -/
def apply_contrast_whitebalance (st : AlignState) (img : Img) : Img :=
  if img.channels = 1 then
    { img with data := (ditherGrayRows st.contrast img.rows img.cols 0 0 img.data).1 }
  else
    { img with data := (ditherColorRows st.contrast st.whitebalance img.rows img.cols
        0 (0, 0, 0) img.data).1 }

/-- `Task_Align::apply_transform`: `cv::warpAffine` to the source's own
size, `cv::INTER_CUBIC`, with `cv::WARP_INVERSE_MAP` set exactly when
`inverse` is false, and `cv::BORDER_REFLECT`. -/
def apply_transform (ops : CVOps) (st : AlignState) (src : Img) (inverse : Bool) : Img :=
  ops.warpAffine src st.transformation src.cols src.rows Interp.cubic (!inverse) Border.reflect

/-- The 4096×5 regressor matrix of `Task_Align::match_contrast`: row
`idx = y*64 + x` is `[1, xd, xd², yd, yd²]` with
`yd = (y - ref.rows/2.0)/ref.rows`, `xd = (x - ref.cols/2.0)/ref.cols`. -/
def match_contrast_positions (ref : Img) : List (List ℚ) :=
  (List.range 64).flatMap (fun (y : Nat) => (List.range 64).map (fun (x : Nat) =>
    let yd : ℚ := ((y : ℚ) - (ref.rows : ℚ) / 2) / (ref.rows : ℚ)
    let xd : ℚ := ((x : ℚ) - (ref.cols : ℚ) / 2) / (ref.cols : ℚ)
    [1, xd, xd * xd, yd, yd * yd]))

/-- The 4096×1 target vector of `Task_Align::match_contrast`: entry
`idx = y*64 + x` is the pixel ratio `ref(y,x) / src(y,x)`. -/
def match_contrast_targets (ref src : Img) : List ℚ :=
  (List.range 64).flatMap (fun y => (List.range 64).map (fun x =>
    ref.px y x 0 / src.px y x 0))

/-- `Task_Align::match_contrast`: warp the grayscale source by the current
transform, resample a 64×64 grid of the ROI of reference and warped source
(area interpolation), and solve the least-squares system by SVD. -/
def match_contrast (ops : CVOps) (inp : AlignInputs) (st : AlignState) : List ℚ :=
  let tmp := apply_transform ops st inp.srcgray.img false
  let ref := ops.resizeTo (inp.refgray.img.crop st.roi) 64 64 Interp.area
  let src := ops.resizeTo (tmp.crop st.roi) 64 64 Interp.area
  ops.solve (match_contrast_positions ref) (match_contrast_targets ref src) Decomp.svd

/-- The 12288×6 factor matrix of `Task_Align::match_whitebalance`: for each
sample `idx = y*64 + x`, three rows — row `idx*3+0` is
`[1, src_b, 0, 0, 0, 0]`, row `idx*3+1` is `[0, 0, 1, src_g, 0, 0]`, row
`idx*3+2` is `[0, 0, 0, 0, 1, src_r]` (block-diagonal by channel). -/
def match_whitebalance_factors (src : Img) : List (List ℚ) :=
  (List.range 64).flatMap (fun y => (List.range 64).flatMap (fun x =>
    [[1, src.px y x 0, 0, 0, 0, 0],
     [0, 0, 1, src.px y x 1, 0, 0],
     [0, 0, 0, 0, 1, src.px y x 2]]))

/-- The 12288×1 target vector of `Task_Align::match_whitebalance`: rows
`idx*3+0 .. idx*3+2` are the three channels of the reference sample. -/
def match_whitebalance_targets (ref : Img) : List ℚ :=
  (List.range 64).flatMap (fun y => (List.range 64).flatMap (fun x =>
    [ref.px y x 0, ref.px y x 1, ref.px y x 2]))

/-- `Task_Align::match_whitebalance`: warp the color source by the current
transform, apply the current contrast/white-balance correction, resample a
64×64 grid of the ROI of reference and corrected source, and solve the
block-diagonal least-squares system by SVD. -/
def match_whitebalance (ops : CVOps) (inp : AlignInputs) (st : AlignState) : List ℚ :=
  let tmp := apply_contrast_whitebalance st (apply_transform ops st inp.srccolor.img false)
  let ref := ops.resizeTo (inp.refcolor.img.crop st.roi) 64 64 Interp.area
  let src := ops.resizeTo (tmp.crop st.roi) 64 64 Interp.area
  ops.solve (match_whitebalance_factors src) (match_whitebalance_targets ref) Decomp.svd

/-- `resolution` in `Task_Align::match_transform`: the longer side of the
grayscale reference. -/
def mtResolution (inp : AlignInputs) : Nat :=
  max inp.refgray.img.cols inp.refgray.img.rows

/-- `scale_ratio` in `Task_Align::match_transform`: 1 when no downscaling
happens, else `max_resolution / resolution` (float division). -/
def mtScaleRatio (inp : AlignInputs) (max_resolution : Nat) : ℚ :=
  if mtResolution inp ≤ max_resolution then 1
  else (max_resolution : ℚ) / (mtResolution inp : ℚ)

/-- The (possibly downscaled) grayscale reference used by one geometric
pass: downscaled by area-average interpolation only when the longer side
exceeds `max_resolution`. -/
def mtRef (ops : CVOps) (inp : AlignInputs) (max_resolution : Nat) : Img :=
  if mtResolution inp ≤ max_resolution then inp.refgray.img
  else ops.resize inp.refgray.img (mtScaleRatio inp max_resolution) Interp.area

/-- The (possibly downscaled) grayscale source of one geometric pass,
before the contrast/white-balance correction is applied to it. -/
def mtSrcScaled (ops : CVOps) (inp : AlignInputs) (max_resolution : Nat) : Img :=
  if mtResolution inp ≤ max_resolution then inp.srcgray.img
  else ops.resize inp.srcgray.img (mtScaleRatio inp max_resolution) Interp.area

/-- All arguments of the `cv::findTransformECC` invocation performed by
`Task_Align::match_transform` with the given state and resolution cap:
the termination criteria are 25 iterations / eps 0.01 for the rough pass and
50 iterations / eps 0.001 for the final pass; the mask is 255 exactly on the
ROI scaled by the scale ratio; the initial transform is the current one with
its translation components multiplied by the scale ratio. -/
def mtEvent (ops : CVOps) (inp : AlignInputs) (st : AlignState)
    (max_resolution : Nat) (rough : Bool) : EccEvent :=
  { ref := mtRef ops inp max_resolution
    src := apply_contrast_whitebalance st (mtSrcScaled ops inp max_resolution)
    tIn := st.transformation
    init := scaleTranslation st.transformation (mtScaleRatio inp max_resolution)
    count := if rough then 25 else 50
    eps := if rough then 1/100 else 1/1000
    mask := maskImg (mtRef ops inp max_resolution).rows (mtRef ops inp max_resolution).cols
      (scaleRect st.roi (mtScaleRatio inp max_resolution)) }

/-- `Task_Align::match_transform`: one geometric ECC pass.  On success the
solved transform's translation components are divided by the scale ratio;
on non-convergence the exception propagates (`none`). -/
def match_transform (ops : CVOps) (inp : AlignInputs) (st : AlignState)
    (max_resolution : Nat) (rough : Bool) : Option Mat23 × EccEvent :=
  let ev := mtEvent ops inp st max_resolution rough
  match ops.findTransformECC ev.ref ev.src ev.init ev.count ev.eps ev.mask with
  | none => (none, ev)
  | some t2 => (some (unscaleTranslation t2 (mtScaleRatio inp max_resolution)), ev)

/-- Lines 66-69 of `task_align.cc`: copy the initial-guess neighbor's solved
transform over the current one when such a dependency was supplied. -/
def seedTransform (inp : AlignInputs) (st : AlignState) : AlignState :=
  match inp.initial_guess with
  | some g => { st with transformation := g }
  | none => st

/-- Lines 71-83 of `task_align.cc`: the region of interest.  With crop
information, mask off the reflected borders generated by `Task_LoadImg`;
otherwise use the full rectangle of the color source. -/
def computeRoi (inp : AlignInputs) : Rect :=
  match inp.cropinfo with
  | some ci =>
    let expand_x : Int := (ci.img.cols : Int) - (ci.orig_width : Int)
    let expand_y : Int := (ci.img.rows : Int) - (ci.orig_height : Int)
    { x := Int.tdiv expand_x 2
      y := Int.tdiv expand_y 2
      width := (ci.img.cols : Int) - expand_x
      height := (ci.img.rows : Int) - expand_y }
  | none =>
    { x := 0, y := 0
      width := (inp.srccolor.img.cols : Int)
      height := (inp.srccolor.img.rows : Int) }

/-- The task state after seeding the transform and computing the ROI
(lines 66-83), i.e. on entry to the rough geometric pass. -/
def stStart (inp : AlignInputs) (st0 : AlignState) : AlignState :=
  { seedTransform inp st0 with roi := computeRoi inp }

/-- The rough geometric pass: `match_transform(256, true)`. -/
def roughPass (ops : CVOps) (inp : AlignInputs) (st0 : AlignState) :
    Option Mat23 × EccEvent :=
  match_transform ops inp (stStart inp st0) 256 true

/-- The state after the conditional contrast fit (lines 87-90), given the
transform `t1` solved by the rough pass. -/
def stAfterContrast (ops : CVOps) (inp : AlignInputs) (st0 : AlignState)
    (t1 : Mat23) : AlignState :=
  let st3 := { stStart inp st0 with transformation := t1 }
  if inp.flags.no_contrast then st3
  else { st3 with contrast := match_contrast ops inp st3 }

/-- The state after the conditional white-balance fit (lines 92-95). -/
def stAfterWB (ops : CVOps) (inp : AlignInputs) (st0 : AlignState)
    (t1 : Mat23) : AlignState :=
  let st4 := stAfterContrast ops inp st0 t1
  if inp.flags.no_whitebalance then st4
  else { st4 with whitebalance := match_whitebalance ops inp st4 }

/-- The resolution cap of the final geometric pass (lines 97-107): the full
longer side of the color source with `ALIGN_FULL_RESOLUTION`, else 2048. -/
def finalCap (inp : AlignInputs) : Nat :=
  if inp.flags.full_resolution then max inp.srccolor.img.cols inp.srccolor.img.rows
  else 2048

/-- The final geometric pass: `match_transform(cap, false)`. -/
def finalPass (ops : CVOps) (inp : AlignInputs) (st0 : AlignState)
    (t1 : Mat23) : Option Mat23 × EccEvent :=
  match_transform ops inp (stAfterWB ops inp st0 t1) (finalCap inp) false

/-- The numeric state at the end of a successful registration run. -/
def finalState (ops : CVOps) (inp : AlignInputs) (st0 : AlignState)
    (t1 t2 : Mat23) : AlignState :=
  { stAfterWB ops inp st0 t1 with transformation := t2 }

/-- Lines 109-114 of `task_align.cc`: warp the full-resolution color source
by the final transform, then — unless both photometric corrections are
disabled — apply the contrast/white-balance models with dithering. -/
def taskResult (ops : CVOps) (inp : AlignInputs) (st0 : AlignState)
    (t1 t2 : Mat23) : Img :=
  let warped := apply_transform ops (finalState ops inp st0 t1 t2) inp.srccolor.img false
  if inp.flags.no_contrast && inp.flags.no_whitebalance then warped
  else apply_contrast_whitebalance (finalState ops inp st0 t1 t2) warped

/-- The contrast-fit / white-balance-fit steps that execute, per flags. -/
def fitEvents (inp : AlignInputs) : List Event :=
  (if inp.flags.no_contrast then [] else [Event.fitContrast])
    ++ (if inp.flags.no_whitebalance then [] else [Event.fitWhitebalance])

/-- The photometric-apply step executes unless both corrections are off. -/
def photoEvents (inp : AlignInputs) : List Event :=
  if inp.flags.no_contrast && inp.flags.no_whitebalance then []
  else [Event.photometric]

/-- The trace of a run that failed in the final geometric pass. -/
def failTrace (ops : CVOps) (inp : AlignInputs) (st0 : AlignState)
    (t1 : Mat23) : List Event :=
  Event.ecc (roughPass ops inp st0).2 ::
    (fitEvents inp ++ [Event.ecc (finalPass ops inp st0 t1).2])

/-- The trace of a successful registration run. -/
def successTrace (ops : CVOps) (inp : AlignInputs) (st0 : AlignState)
    (t1 : Mat23) : List Event :=
  Event.ecc (roughPass ops inp st0).2 ::
    (fitEvents inp ++ [Event.ecc (finalPass ops inp st0 t1).2, Event.warpColor]
      ++ photoEvents inp)

/-- All dependency references held after construction. -/
def constructedRefs (inp : AlignInputs) : DepRefs :=
  { refgray := some inp.refgray
    refcolor := some inp.refcolor
    srcgray := some inp.srcgray
    srccolor := some inp.srccolor
    initial_guess := inp.initial_guess
    cropinfo := inp.cropinfo }

/-- Lines 117-122 of `task_align.cc`: every dependency reference reset. -/
def droppedRefs : DepRefs :=
  { refgray := none, refcolor := none, srcgray := none, srccolor := none,
    initial_guess := none, cropinfo := none }

/-- The numeric state set up by the `Task_Align` constructor (lines 38-55):
identity transform, contrast `[1, 0, 0, 0, 0]`, white balance
`[0, 1, 0, 1, 0, 1]`, and a default (zero) ROI. -/
def Task_Align.construct : AlignState :=
  { transformation := ⟨1, 0, 0, 0, 1, 0⟩
    contrast := [1, 0, 0, 0, 0]
    whitebalance := [0, 1, 0, 1, 0, 1]
    roi := ⟨0, 0, 0, 0⟩ }

/-- `Task_Align::task`: the identity short-circuit when reference and
source are the same task object, else seeding, ROI computation, the rough
pass, the conditional photometric fits, the final pass, and the final
geometric + photometric application; all dependency references are dropped
on normal completion.  Returns `none` when an ECC pass fails to converge
(the exception propagates out of the run), together with the trace of the
steps that were performed. -/
def Task_Align.task (ops : CVOps) (inp : AlignInputs) (st0 : AlignState) :
    Option Published × List Event :=
  if inp.refcolor.id = inp.srccolor.id then
    (some { state := st0, result := some inp.srccolor.img, refs := droppedRefs }, [])
  else
    match (roughPass ops inp st0).1 with
    | none => (none, [Event.ecc (roughPass ops inp st0).2])
    | some t1 =>
      match (finalPass ops inp st0 t1).1 with
      | none => (none, failTrace ops inp st0 t1)
      | some t2 =>
        (some { state := finalState ops inp st0 t1 t2
                result := some (taskResult ops inp st0 t1 t2)
                refs := droppedRefs },
         successTrace ops inp st0 t1)

/-! ### Specification-side definitions used in theorem statements -/

/-- The float channel triples of one pixel row in scan order; a
specification-side measure used to state the residual-conservation property
of the dithering loop. -/
def colorFloats (contrast wb : List ℚ) (rows cols y : Nat) :
    Nat → List (List Nat) → List (ℚ × ℚ × ℚ)
  | _, [] => []
  | x, px :: rest =>
    colorFloatPx (contrastAt contrast rows cols y x) wb px ::
      colorFloats contrast wb rows cols y (x + 1) rest

/-- The float channel triples of a whole image in scan order. -/
def colorFloatsRows (contrast wb : List ℚ) (rows cols : Nat) :
    Nat → List (List (List Nat)) → List (ℚ × ℚ × ℚ)
  | _, [] => []
  | y, row :: rest =>
    colorFloats contrast wb rows cols y 0 row
      ++ colorFloatsRows contrast wb rows cols (y + 1) rest

/-- Everything one geometric pass hands to `cv::findTransformECC`, spelled
out: downscaling (area-average) happens exactly when the longer side of the
grayscale reference exceeds the cap, the contrast/white-balance correction
is applied to the (possibly downscaled) source, the mask is 255 exactly on
the ROI scaled by the same ratio, the initial transform has its two
translation components multiplied by the ratio (all four other entries
unchanged), the termination criteria are 25 iterations / 0.01 for the rough
pass and 50 iterations / 0.001 for the final pass, and the solved transform
is returned with its translation components divided by the ratio. -/
def eccPassSpec (ops : CVOps) (inp : AlignInputs) (st : AlignState)
    (cap : Nat) (rough : Bool) : Prop :=
  let res := max inp.refgray.img.cols inp.refgray.img.rows
  let r : ℚ := if res ≤ cap then 1 else (cap : ℚ) / (res : ℚ)
  let e := mtEvent ops inp st cap rough
  e.ref = (if res ≤ cap then inp.refgray.img
           else ops.resize inp.refgray.img r Interp.area) ∧
  e.src = apply_contrast_whitebalance st
    (if res ≤ cap then inp.srcgray.img
     else ops.resize inp.srcgray.img r Interp.area) ∧
  e.mask = maskImg e.ref.rows e.ref.cols (scaleRect st.roi r) ∧
  e.tIn = st.transformation ∧
  e.init = scaleTranslation st.transformation r ∧
  e.init.a00 = st.transformation.a00 ∧ e.init.a01 = st.transformation.a01 ∧
  e.init.a10 = st.transformation.a10 ∧ e.init.a11 = st.transformation.a11 ∧
  e.count = (if rough then 25 else 50) ∧
  e.eps = (if rough then 1/100 else 1/1000) ∧
  (match_transform ops inp st cap rough).1 =
    (ops.findTransformECC e.ref e.src e.init e.count e.eps e.mask).map
      (fun t => unscaleTranslation t r)

/-- The property of claim C1, for a successful run with trace `tr`: the
trace contains exactly two ECC invocations — the rough pass at cap 256 and
the final pass at the configured cap — each satisfying `eccPassSpec`. -/
def C1prop (ops : CVOps) (inp : AlignInputs) (st0 : AlignState)
    (tr : List Event) : Prop :=
  ∃ t1 t2,
    (roughPass ops inp st0).1 = some t1 ∧
    (finalPass ops inp st0 t1).1 = some t2 ∧
    eccEvents tr = [(roughPass ops inp st0).2, (finalPass ops inp st0 t1).2] ∧
    (roughPass ops inp st0).2 = mtEvent ops inp (stStart inp st0) 256 true ∧
    (finalPass ops inp st0 t1).2 =
      mtEvent ops inp (stAfterWB ops inp st0 t1) (finalCap inp) false ∧
    eccPassSpec ops inp (stStart inp st0) 256 true ∧
    eccPassSpec ops inp (stAfterWB ops inp st0 t1) (finalCap inp) false ∧
    (inp.flags.full_resolution = true →
      finalCap inp = max inp.srccolor.img.cols inp.srccolor.img.rows) ∧
    (inp.flags.full_resolution = false → finalCap inp = 2048)

/-- The property of claim C3, for a successful run publishing `p`: the
result is the cubic / border-reflect / inverse-map warp of the color source
by the final transform, photometrically corrected unless both corrections
are disabled; every stored channel value is clamped to `[0, 255]`; the
color correction is the error-diffusion scan whose carried residuals obey
the conservation equation. -/
def C3prop (ops : CVOps) (inp : AlignInputs) (st0 : AlignState)
    (p : Published) : Prop :=
  (∃ t1 t2,
    (roughPass ops inp st0).1 = some t1 ∧
    (finalPass ops inp st0 t1).1 = some t2 ∧
    p.result = some (taskResult ops inp st0 t1 t2) ∧
    taskResult ops inp st0 t1 t2 =
      (if inp.flags.no_contrast && inp.flags.no_whitebalance then
        ops.warpAffine inp.srccolor.img (finalState ops inp st0 t1 t2).transformation
          inp.srccolor.img.cols inp.srccolor.img.rows Interp.cubic true Border.reflect
      else
        apply_contrast_whitebalance (finalState ops inp st0 t1 t2)
          (ops.warpAffine inp.srccolor.img (finalState ops inp st0 t1 t2).transformation
            inp.srccolor.img.cols inp.srccolor.img.rows Interp.cubic true Border.reflect)) ∧
    ((inp.flags.no_contrast && inp.flags.no_whitebalance) = false →
      ∀ row ∈ (taskResult ops inp st0 t1 t2).data, ∀ px ∈ row, ∀ v ∈ px, v ≤ 255)) ∧
  (∀ (st : AlignState) (img : Img), ¬ img.channels = 1 →
    (apply_contrast_whitebalance st img).data =
      (ditherColorRows st.contrast st.whitebalance img.rows img.cols 0 (0, 0, 0) img.data).1) ∧
  (∀ (contrast wb : List ℚ) (rows cols : Nat) (rowsData : List (List (List Nat)))
      (y : Nat) (d : ℚ × ℚ × ℚ),
    (ditherColorRows contrast wb rows cols y d rowsData).2 =
      (d.1 + ((colorFloatsRows contrast wb rows cols y rowsData).map (fun f => f.1)).sum
         - ((((ditherColorRows contrast wb rows cols y d rowsData).1).flatten).map
             (fun px => (px.getD 0 0 : ℚ))).sum,
       d.2.1 + ((colorFloatsRows contrast wb rows cols y rowsData).map (fun f => f.2.1)).sum
         - ((((ditherColorRows contrast wb rows cols y d rowsData).1).flatten).map
             (fun px => (px.getD 1 0 : ℚ))).sum,
       d.2.2 + ((colorFloatsRows contrast wb rows cols y rowsData).map (fun f => f.2.2)).sum
         - ((((ditherColorRows contrast wb rows cols y d rowsData).1).flatten).map
             (fun px => (px.getD 2 0 : ℚ))).sum))

/-- The property of claim C4, for a successful run publishing `p` with
contrast correction enabled: the contrast model is the SVD least-squares
solution of the 64×64-grid system whose row `y*64+x` regresses the pixel
ratio `ref/src` on `[1, x̂, x̂², ŷ, ŷ²]` with center-normalized sample
coordinates. -/
def C4prop (ops : CVOps) (inp : AlignInputs) (st0 : AlignState)
    (p : Published) : Prop :=
  ∃ t1, (roughPass ops inp st0).1 = some t1 ∧
    (let ref := ops.resizeTo (inp.refgray.img.crop (computeRoi inp)) 64 64 Interp.area
     let src := ops.resizeTo
       ((apply_transform ops { stStart inp st0 with transformation := t1 }
          inp.srcgray.img false).crop (computeRoi inp)) 64 64 Interp.area
     p.state.contrast =
       ops.solve (match_contrast_positions ref) (match_contrast_targets ref src)
         Decomp.svd ∧
     ∀ y x : Nat, y < 64 → x < 64 →
       (match_contrast_positions ref)[y * 64 + x]? =
         some [1, ((x : ℚ) - (ref.cols : ℚ) / 2) / (ref.cols : ℚ),
           (((x : ℚ) - (ref.cols : ℚ) / 2) / (ref.cols : ℚ)) *
             (((x : ℚ) - (ref.cols : ℚ) / 2) / (ref.cols : ℚ)),
           ((y : ℚ) - (ref.rows : ℚ) / 2) / (ref.rows : ℚ),
           (((y : ℚ) - (ref.rows : ℚ) / 2) / (ref.rows : ℚ)) *
             (((y : ℚ) - (ref.rows : ℚ) / 2) / (ref.rows : ℚ))] ∧
       (match_contrast_targets ref src)[y * 64 + x]? =
         some (ref.px y x 0 / src.px y x 0))

/-- The property of claim C5, for a successful run publishing `p` with
white-balance correction enabled: the white-balance model is the SVD
least-squares solution of the joint block-diagonal-by-channel system over
the 64×64 color grid, sampled from the source with the solved transform and
the current (fitted, when enabled) contrast correction applied. -/
def C5prop (ops : CVOps) (inp : AlignInputs) (st0 : AlignState)
    (p : Published) : Prop :=
  ∃ t1, (roughPass ops inp st0).1 = some t1 ∧
    (let st4 := stAfterContrast ops inp st0 t1
     let ref := ops.resizeTo (inp.refcolor.img.crop st4.roi) 64 64 Interp.area
     let src := ops.resizeTo
       ((apply_contrast_whitebalance st4
          (apply_transform ops st4 inp.srccolor.img false)).crop st4.roi) 64 64 Interp.area
     st4.roi = computeRoi inp ∧
     st4.transformation = t1 ∧
     p.state.whitebalance =
       ops.solve (match_whitebalance_factors src) (match_whitebalance_targets ref)
         Decomp.svd ∧
     (inp.flags.no_contrast = false →
       st4.contrast = match_contrast ops inp { stStart inp st0 with transformation := t1 }) ∧
     ∀ y x : Nat, y < 64 → x < 64 →
       (match_whitebalance_factors src)[(y * 64 + x) * 3]? =
         some [1, src.px y x 0, 0, 0, 0, 0] ∧
       (match_whitebalance_factors src)[(y * 64 + x) * 3 + 1]? =
         some [0, 0, 1, src.px y x 1, 0, 0] ∧
       (match_whitebalance_factors src)[(y * 64 + x) * 3 + 2]? =
         some [0, 0, 0, 0, 1, src.px y x 2] ∧
       (match_whitebalance_targets ref)[(y * 64 + x) * 3]? = some (ref.px y x 0) ∧
       (match_whitebalance_targets ref)[(y * 64 + x) * 3 + 1]? = some (ref.px y x 1) ∧
       (match_whitebalance_targets ref)[(y * 64 + x) * 3 + 2]? = some (ref.px y x 2))

/-- The property of claim C7: the transform is the identity at
construction; a supplied initial guess is copied over it (otherwise the
identity is kept) before any geometric pass; the first ECC invocation of
the run starts from exactly that seeded transform. -/
def C7prop (inp : AlignInputs) (tr : List Event) : Prop :=
  Task_Align.construct.transformation =
    { a00 := 1, a01 := 0, a02 := 0, a10 := 0, a11 := 1, a12 := 0 } ∧
  (∀ g, inp.initial_guess = some g →
    (stStart inp Task_Align.construct).transformation = g) ∧
  (inp.initial_guess = none →
    (stStart inp Task_Align.construct).transformation =
      Task_Align.construct.transformation) ∧
  (∃ e rest, tr = Event.ecc e :: rest ∧
    e.tIn = (stStart inp Task_Align.construct).transformation)

/-- The property of claim C9: non-convergence of either ECC pass makes the
whole run fail (no published result), and a successful run's transform is
exactly the final pass's solution. -/
def C9prop (ops : CVOps) (inp : AlignInputs) (st0 : AlignState) : Prop :=
  ((roughPass ops inp st0).1 = none → (Task_Align.task ops inp st0).1 = none) ∧
  (∀ t1, (roughPass ops inp st0).1 = some t1 → (finalPass ops inp st0 t1).1 = none →
    (Task_Align.task ops inp st0).1 = none) ∧
  (∀ p tr, Task_Align.task ops inp st0 = (some p, tr) →
    ∃ t1 t2, (roughPass ops inp st0).1 = some t1 ∧
      (finalPass ops inp st0 t1).1 = some t2 ∧
      p.state.transformation = t2 ∧
      p.result = some (taskResult ops inp st0 t1 t2))

/-! ### Concrete configurations used by the witnesses -/

/-- A concrete 2×2 grayscale raster. -/
def imgG : Img := { rows := 2, cols := 2, channels := 1, data := [[[10], [20]], [[30], [40]]] }

/-- A concrete 2×2 color raster. -/
def imgC : Img :=
  { rows := 2, cols := 2, channels := 3
    data := [[[1, 2, 3], [4, 5, 6]], [[7, 8, 9], [10, 11, 12]]] }

/-- An oracle assignment whose ECC solver always converges (returning its
initial transform) and whose other primitives are simple total functions. -/
def opsOk : CVOps :=
  { resize := fun i _ _ => i
    resizeTo := fun i _ _ _ => i
    findTransformECC := fun _ _ t _ _ _ => some t
    warpAffine := fun s _ _ _ _ _ _ => s
    solve := fun _ _ _ => [] }

/-- An oracle assignment whose ECC solver never converges. -/
def opsFailRough : CVOps :=
  { opsOk with findTransformECC := fun _ _ _ _ _ _ => none }

/-- A registration run on distinct reference and source tasks, with no
initial guess, no crop information and all corrections enabled. -/
def inpW : AlignInputs :=
  { refgray := { id := 0, img := imgG }, refcolor := { id := 1, img := imgC }
    srcgray := { id := 2, img := imgG }, srccolor := { id := 3, img := imgC }
    initial_guess := none, cropinfo := none
    flags := { no_contrast := false, no_whitebalance := false, full_resolution := false } }

/-- The same run with reference and source being the same task object. -/
def inpSame : AlignInputs := { inpW with srccolor := { id := 1, img := imgC } }

/-- A concrete crop-information dependency. -/
def ciW : Task_LoadImg := { img := imgC, orig_width := 2, orig_height := 2 }

/-- The same run with crop information supplied. -/
def inpCrop : AlignInputs := { inpW with cropinfo := some ciW }

/-- A concrete neighbor transform used as an initial guess. -/
def gW : Mat23 := { a00 := 1, a01 := 0, a02 := 5, a10 := 0, a11 := 1, a12 := 7 }

/-- The same run with an initial-guess neighbor supplied. -/
def inpGuess : AlignInputs := { inpW with initial_guess := some gW }

/-- A default `Published` value for `Option.getD`. -/
def dummyPublished : Published :=
  { state := Task_Align.construct, result := none, refs := droppedRefs }

/-- The published value of the concrete run on `inpW`. -/
def pW : Published :=
  ((Task_Align.task opsOk inpW Task_Align.construct).1).getD dummyPublished

/-- The trace of the concrete run on `inpW`. -/
def trW : List Event := (Task_Align.task opsOk inpW Task_Align.construct).2

/-- The published value of the concrete run on `inpCrop`. -/
def pCrop : Published :=
  ((Task_Align.task opsOk inpCrop Task_Align.construct).1).getD dummyPublished

/-- The trace of the concrete run on `inpCrop`. -/
def trCrop : List Event := (Task_Align.task opsOk inpCrop Task_Align.construct).2

/-- The published value of the concrete run on `inpGuess`. -/
def pGuess : Published :=
  ((Task_Align.task opsOk inpGuess Task_Align.construct).1).getD dummyPublished

/-- The trace of the concrete run on `inpGuess`. -/
def trGuess : List Event := (Task_Align.task opsOk inpGuess Task_Align.construct).2

/-! ### Basic lemmas about the embedded operations -/

theorem clamp255_le (i : Int) : clamp255 i ≤ 255 :=
  Int.toNat_le.mpr (min_le_left _ _)

theorem match_transform_snd (ops : CVOps) (inp : AlignInputs) (st : AlignState)
    (cap : Nat) (rough : Bool) :
    (match_transform ops inp st cap rough).2 = mtEvent ops inp st cap rough := by
  cases h : ops.findTransformECC (mtEvent ops inp st cap rough).ref
      (mtEvent ops inp st cap rough).src (mtEvent ops inp st cap rough).init
      (mtEvent ops inp st cap rough).count (mtEvent ops inp st cap rough).eps
      (mtEvent ops inp st cap rough).mask <;>
    simp [match_transform, h]

theorem match_transform_fst (ops : CVOps) (inp : AlignInputs) (st : AlignState)
    (cap : Nat) (rough : Bool) :
    (match_transform ops inp st cap rough).1 =
      (ops.findTransformECC (mtEvent ops inp st cap rough).ref
        (mtEvent ops inp st cap rough).src (mtEvent ops inp st cap rough).init
        (mtEvent ops inp st cap rough).count (mtEvent ops inp st cap rough).eps
        (mtEvent ops inp st cap rough).mask).map
        (fun t => unscaleTranslation t (mtScaleRatio inp cap)) := by
  cases h : ops.findTransformECC (mtEvent ops inp st cap rough).ref
      (mtEvent ops inp st cap rough).src (mtEvent ops inp st cap rough).init
      (mtEvent ops inp st cap rough).count (mtEvent ops inp st cap rough).eps
      (mtEvent ops inp st cap rough).mask <;>
    simp [match_transform, h]

theorem stStart_roi (inp : AlignInputs) (st0 : AlignState) :
    (stStart inp st0).roi = computeRoi inp := rfl

theorem stAfterContrast_roi (ops : CVOps) (inp : AlignInputs) (st0 : AlignState)
    (t1 : Mat23) : (stAfterContrast ops inp st0 t1).roi = computeRoi inp := by
  unfold stAfterContrast
  cases hc : inp.flags.no_contrast <;> simp [hc, stStart]

theorem stAfterContrast_transformation (ops : CVOps) (inp : AlignInputs)
    (st0 : AlignState) (t1 : Mat23) :
    (stAfterContrast ops inp st0 t1).transformation = t1 := by
  unfold stAfterContrast
  cases hc : inp.flags.no_contrast <;> simp [hc]

theorem stAfterWB_roi (ops : CVOps) (inp : AlignInputs) (st0 : AlignState)
    (t1 : Mat23) : (stAfterWB ops inp st0 t1).roi = computeRoi inp := by
  unfold stAfterWB
  cases hw : inp.flags.no_whitebalance <;>
    simp [hw, stAfterContrast_roi]

theorem stAfterWB_transformation (ops : CVOps) (inp : AlignInputs) (st0 : AlignState)
    (t1 : Mat23) : (stAfterWB ops inp st0 t1).transformation = t1 := by
  unfold stAfterWB
  cases hw : inp.flags.no_whitebalance <;>
    simp [hw, stAfterContrast_transformation]

theorem stAfterWB_contrast (ops : CVOps) (inp : AlignInputs) (st0 : AlignState)
    (t1 : Mat23) :
    (stAfterWB ops inp st0 t1).contrast = (stAfterContrast ops inp st0 t1).contrast := by
  unfold stAfterWB
  cases hw : inp.flags.no_whitebalance <;> simp [hw]

theorem stAfterContrast_contrast_of (ops : CVOps) (inp : AlignInputs) (st0 : AlignState)
    (t1 : Mat23) (hc : inp.flags.no_contrast = false) :
    (stAfterContrast ops inp st0 t1).contrast =
      match_contrast ops inp { stStart inp st0 with transformation := t1 } := by
  unfold stAfterContrast
  simp [hc]

theorem stAfterWB_whitebalance_of (ops : CVOps) (inp : AlignInputs) (st0 : AlignState)
    (t1 : Mat23) (hw : inp.flags.no_whitebalance = false) :
    (stAfterWB ops inp st0 t1).whitebalance =
      match_whitebalance ops inp (stAfterContrast ops inp st0 t1) := by
  unfold stAfterWB
  simp [hw]

theorem eccEvents_append (a b : List Event) :
    eccEvents (a ++ b) = eccEvents a ++ eccEvents b := by
  induction a with
  | nil => rfl
  | cons e r ih => cases e <;> simp [eccEvents, ih]

theorem eccEvents_fitEvents (inp : AlignInputs) : eccEvents (fitEvents inp) = [] := by
  unfold fitEvents
  cases inp.flags.no_contrast <;> cases inp.flags.no_whitebalance <;> rfl

theorem eccEvents_photoEvents (inp : AlignInputs) : eccEvents (photoEvents inp) = [] := by
  unfold photoEvents
  cases h : inp.flags.no_contrast && inp.flags.no_whitebalance <;> simp [eccEvents]

theorem eccEvents_successTrace (ops : CVOps) (inp : AlignInputs) (st0 : AlignState)
    (t1 : Mat23) :
    eccEvents (successTrace ops inp st0 t1) =
      [(roughPass ops inp st0).2, (finalPass ops inp st0 t1).2] := by
  simp [successTrace, eccEvents, eccEvents_append, eccEvents_fitEvents,
    eccEvents_photoEvents]

/-- Elimination principle for a successful registration run: both geometric
passes converged and the published value and trace have the expected
shape. -/
theorem task_success_cases (ops : CVOps) (inp : AlignInputs) (st0 : AlignState)
    (p : Published) (tr : List Event)
    (hneq : inp.refcolor.id ≠ inp.srccolor.id)
    (h : Task_Align.task ops inp st0 = (some p, tr)) :
    ∃ t1 t2, (roughPass ops inp st0).1 = some t1 ∧
      (finalPass ops inp st0 t1).1 = some t2 ∧
      p = { state := finalState ops inp st0 t1 t2
            result := some (taskResult ops inp st0 t1 t2)
            refs := droppedRefs } ∧
      tr = successTrace ops inp st0 t1 := by
  unfold Task_Align.task at h
  rw [if_neg hneq] at h
  split at h
  · exact Option.noConfusion (congrArg Prod.fst h)
  · rename_i t1 heq1
    split at h
    · exact Option.noConfusion (congrArg Prod.fst h)
    · rename_i t2 heq2
      exact ⟨t1, t2, heq1, heq2, (Option.some.inj (congrArg Prod.fst h)).symm,
        (congrArg Prod.snd h).symm⟩

theorem task_fst_rough_none (ops : CVOps) (inp : AlignInputs) (st0 : AlignState)
    (hneq : inp.refcolor.id ≠ inp.srccolor.id)
    (h1 : (roughPass ops inp st0).1 = none) :
    (Task_Align.task ops inp st0).1 = none := by
  unfold Task_Align.task
  rw [if_neg hneq]
  split
  · rfl
  · rename_i t1 heq
    rw [h1] at heq
    exact Option.noConfusion heq

theorem task_fst_final_none (ops : CVOps) (inp : AlignInputs) (st0 : AlignState)
    (t1 : Mat23) (hneq : inp.refcolor.id ≠ inp.srccolor.id)
    (h1 : (roughPass ops inp st0).1 = some t1)
    (h2 : (finalPass ops inp st0 t1).1 = none) :
    (Task_Align.task ops inp st0).1 = none := by
  unfold Task_Align.task
  rw [if_neg hneq]
  split
  · rfl
  · rename_i t1' heq
    rw [h1] at heq
    obtain rfl := Option.some.inj heq
    split
    · rfl
    · rename_i t2 heq2
      rw [h2] at heq2
      exact Option.noConfusion heq2

/-! ### Indexing the sample matrices built by the photometric fits -/

theorem length_flatMap_const {α β : Type} (k : Nat) (f : α → List β)
    (hf : ∀ a, (f a).length = k) (l : List α) :
    (l.flatMap f).length = l.length * k := by
  induction l with
  | nil => simp
  | cons a r ih =>
    simp only [List.flatMap_cons, List.length_append, hf a, ih, List.length_cons]
    ring

theorem getElem?_flatMap_uniform {α β : Type} (k : Nat) (f : α → List β)
    (hf : ∀ a, (f a).length = k) (l : List α) :
    ∀ (i j : Nat), j < k →
      (l.flatMap f)[i * k + j]? = l[i]?.bind (fun a => (f a)[j]?) := by
  induction l with
  | nil => intro i j hj; simp
  | cons a r ih =>
    intro i j hj
    cases i with
    | zero =>
      simp only [List.flatMap_cons, Nat.zero_mul, Nat.zero_add]
      rw [List.getElem?_append_left (by rw [hf a]; exact hj)]
      simp
    | succ i =>
      simp only [List.flatMap_cons]
      have harith : (i + 1) * k + j = k + (i * k + j) := by ring
      rw [harith, List.getElem?_append_right (by rw [hf a]; exact Nat.le_add_right _ _)]
      rw [hf a, Nat.add_sub_cancel_left]
      simp only [List.getElem?_cons_succ]
      exact ih i j hj

theorem match_contrast_positions_get (ref : Img) (y x : Nat)
    (hy : y < 64) (hx : x < 64) :
    (match_contrast_positions ref)[y * 64 + x]? =
      some [1, ((x : ℚ) - (ref.cols : ℚ) / 2) / (ref.cols : ℚ),
        (((x : ℚ) - (ref.cols : ℚ) / 2) / (ref.cols : ℚ)) *
          (((x : ℚ) - (ref.cols : ℚ) / 2) / (ref.cols : ℚ)),
        ((y : ℚ) - (ref.rows : ℚ) / 2) / (ref.rows : ℚ),
        (((y : ℚ) - (ref.rows : ℚ) / 2) / (ref.rows : ℚ)) *
          (((y : ℚ) - (ref.rows : ℚ) / 2) / (ref.rows : ℚ))] := by
  unfold match_contrast_positions
  rw [getElem?_flatMap_uniform 64]
  · rw [List.getElem?_range hy]
    simp only [Option.some_bind]
    rw [List.getElem?_map, List.getElem?_range hx]
    rfl
  · intro a; simp
  · exact hx

theorem match_contrast_targets_get (ref src : Img) (y x : Nat)
    (hy : y < 64) (hx : x < 64) :
    (match_contrast_targets ref src)[y * 64 + x]? =
      some (ref.px y x 0 / src.px y x 0) := by
  unfold match_contrast_targets
  rw [getElem?_flatMap_uniform 64]
  · rw [List.getElem?_range hy]
    simp only [Option.some_bind]
    rw [List.getElem?_map, List.getElem?_range hx]
    rfl
  · intro a; simp
  · exact hx

theorem match_whitebalance_factors_get (src : Img) (y x k : Nat)
    (hy : y < 64) (hx : x < 64) (hk : k < 3) :
    (match_whitebalance_factors src)[(y * 64 + x) * 3 + k]? =
      [[1, src.px y x 0, 0, 0, 0, 0],
       [0, 0, 1, src.px y x 1, 0, 0],
       [0, 0, 0, 0, 1, src.px y x 2]][k]? := by
  unfold match_whitebalance_factors
  have harith : (y * 64 + x) * 3 + k = y * 192 + (x * 3 + k) := by ring
  rw [harith, getElem?_flatMap_uniform 192]
  · rw [List.getElem?_range hy]
    simp only [Option.some_bind]
    rw [getElem?_flatMap_uniform 3]
    · rw [List.getElem?_range hx]
      simp only [Option.some_bind]
    · intro a; rfl
    · exact hk
  · intro a
    rw [length_flatMap_const 3]
    · simp
    · intro b; rfl
  · omega

theorem match_whitebalance_targets_get (ref : Img) (y x k : Nat)
    (hy : y < 64) (hx : x < 64) (hk : k < 3) :
    (match_whitebalance_targets ref)[(y * 64 + x) * 3 + k]? =
      [ref.px y x 0, ref.px y x 1, ref.px y x 2][k]? := by
  unfold match_whitebalance_targets
  have harith : (y * 64 + x) * 3 + k = y * 192 + (x * 3 + k) := by ring
  rw [harith, getElem?_flatMap_uniform 192]
  · rw [List.getElem?_range hy]
    simp only [Option.some_bind]
    rw [getElem?_flatMap_uniform 3]
    · rw [List.getElem?_range hx]
      simp only [Option.some_bind]
    · intro a; rfl
    · exact hk
  · intro a
    rw [length_flatMap_const 3]
    · simp
    · intro b; rfl
  · omega

/-! ### Properties of the error-diffusion dithering -/

theorem ditherGrayPx_fst (c delta : ℚ) (v : Nat) :
    (ditherGrayPx c delta v).1 = clamp255 (cvInt ((v : ℚ) * c + delta)) := rfl

theorem ditherGrayPx_snd (c delta : ℚ) (v : Nat) :
    (ditherGrayPx c delta v).2 =
      delta + (v : ℚ) * c - ((ditherGrayPx c delta v).1 : ℚ) := rfl

theorem ditherColorPx_fst (c : ℚ) (wb : List ℚ) (d : ℚ × ℚ × ℚ) (px : List Nat) :
    (ditherColorPx c wb d px).1 =
      [clamp255 (cvInt ((colorFloatPx c wb px).1 + d.1)),
       clamp255 (cvInt ((colorFloatPx c wb px).2.1 + d.2.1)),
       clamp255 (cvInt ((colorFloatPx c wb px).2.2 + d.2.2))] := rfl

theorem ditherColorPx_snd (c : ℚ) (wb : List ℚ) (d : ℚ × ℚ × ℚ) (px : List Nat) :
    (ditherColorPx c wb d px).2 =
      (d.1 + (colorFloatPx c wb px).1 - (((ditherColorPx c wb d px).1).getD 0 0 : ℚ),
       d.2.1 + (colorFloatPx c wb px).2.1 - (((ditherColorPx c wb d px).1).getD 1 0 : ℚ),
       d.2.2 + (colorFloatPx c wb px).2.2 - (((ditherColorPx c wb d px).1).getD 2 0 : ℚ)) := rfl

theorem ditherColorPx_mem_le (c : ℚ) (wb : List ℚ) (d : ℚ × ℚ × ℚ) (px : List Nat)
    (v : Nat) (hv : v ∈ (ditherColorPx c wb d px).1) : v ≤ 255 := by
  rw [ditherColorPx_fst] at hv
  simp only [List.mem_cons, List.not_mem_nil, or_false] at hv
  rcases hv with rfl | rfl | rfl <;> exact clamp255_le _

theorem ditherGrayRow_mem_le (contrast : List ℚ) (rows cols y : Nat) :
    ∀ (pxs : List (List Nat)) (x : Nat) (delta : ℚ) (px : List Nat) (v : Nat),
      px ∈ (ditherGrayRow contrast rows cols y x delta pxs).1 → v ∈ px → v ≤ 255 := by
  intro pxs
  induction pxs with
  | nil => intro x delta px v hpx _; simp [ditherGrayRow] at hpx
  | cons p rest ih =>
    intro x delta px v hpx hv
    simp only [ditherGrayRow, List.mem_cons] at hpx
    rcases hpx with rfl | hpx
    · simp only [List.mem_singleton] at hv
      subst hv
      rw [ditherGrayPx_fst]
      exact clamp255_le _
    · exact ih (x + 1) _ px v hpx hv

theorem ditherGrayRows_mem_le (contrast : List ℚ) (rows cols : Nat) :
    ∀ (rowsData : List (List (List Nat))) (y : Nat) (delta : ℚ)
      (row : List (List Nat)) (px : List Nat) (v : Nat),
      row ∈ (ditherGrayRows contrast rows cols y delta rowsData).1 →
      px ∈ row → v ∈ px → v ≤ 255 := by
  intro rowsData
  induction rowsData with
  | nil => intro y delta row px v hrow _ _; simp [ditherGrayRows] at hrow
  | cons r rest ih =>
    intro y delta row px v hrow hpx hv
    simp only [ditherGrayRows, List.mem_cons] at hrow
    rcases hrow with rfl | hrow
    · exact ditherGrayRow_mem_le contrast rows cols y r 0 delta px v hpx hv
    · exact ih (y + 1) _ row px v hrow hpx hv

theorem ditherColorRow_mem_le (contrast wb : List ℚ) (rows cols y : Nat) :
    ∀ (pxs : List (List Nat)) (x : Nat) (d : ℚ × ℚ × ℚ) (px : List Nat) (v : Nat),
      px ∈ (ditherColorRow contrast wb rows cols y x d pxs).1 → v ∈ px → v ≤ 255 := by
  intro pxs
  induction pxs with
  | nil => intro x d px v hpx _; simp [ditherColorRow] at hpx
  | cons p rest ih =>
    intro x d px v hpx hv
    simp only [ditherColorRow, List.mem_cons] at hpx
    rcases hpx with rfl | hpx
    · exact ditherColorPx_mem_le _ wb _ p v hv
    · exact ih (x + 1) _ px v hpx hv

theorem ditherColorRows_mem_le (contrast wb : List ℚ) (rows cols : Nat) :
    ∀ (rowsData : List (List (List Nat))) (y : Nat) (d : ℚ × ℚ × ℚ)
      (row : List (List Nat)) (px : List Nat) (v : Nat),
      row ∈ (ditherColorRows contrast wb rows cols y d rowsData).1 →
      px ∈ row → v ∈ px → v ≤ 255 := by
  intro rowsData
  induction rowsData with
  | nil => intro y d row px v hrow _ _; simp [ditherColorRows] at hrow
  | cons r rest ih =>
    intro y d row px v hrow hpx hv
    simp only [ditherColorRows, List.mem_cons] at hrow
    rcases hrow with rfl | hrow
    · exact ditherColorRow_mem_le contrast wb rows cols y r 0 d px v hpx hv
    · exact ih (y + 1) _ row px v hrow hpx hv

/-- Every channel value stored by the photometric correction is in
`[0, 255]` (the upper bound; the lower bound holds by the `Nat` coding). -/
theorem apply_contrast_whitebalance_le (st : AlignState) (img : Img) :
    ∀ row ∈ (apply_contrast_whitebalance st img).data, ∀ px ∈ row, ∀ v ∈ px, v ≤ 255 := by
  intro row hrow px hpx v hv
  unfold apply_contrast_whitebalance at hrow
  by_cases h : img.channels = 1
  · rw [if_pos h] at hrow
    exact ditherGrayRows_mem_le st.contrast img.rows img.cols img.data 0 0 row px v hrow hpx hv
  · rw [if_neg h] at hrow
    exact ditherColorRows_mem_le st.contrast st.whitebalance img.rows img.cols img.data
      0 (0, 0, 0) row px v hrow hpx hv

/-- Residual conservation along one row: after processing a row, each
channel's carried `delta` equals its initial value plus the sum of the float
values minus the sum of the stored values — i.e. the rounding residual of
every pixel is carried forward to the next pixel in scan order. -/
theorem ditherColorRow_delta (contrast wb : List ℚ) (rows cols y : Nat) :
    ∀ (pxs : List (List Nat)) (x : Nat) (d : ℚ × ℚ × ℚ),
      (ditherColorRow contrast wb rows cols y x d pxs).2 =
        (d.1 + ((colorFloats contrast wb rows cols y x pxs).map (fun f => f.1)).sum
           - (((ditherColorRow contrast wb rows cols y x d pxs).1).map
               (fun px => (px.getD 0 0 : ℚ))).sum,
         d.2.1 + ((colorFloats contrast wb rows cols y x pxs).map (fun f => f.2.1)).sum
           - (((ditherColorRow contrast wb rows cols y x d pxs).1).map
               (fun px => (px.getD 1 0 : ℚ))).sum,
         d.2.2 + ((colorFloats contrast wb rows cols y x pxs).map (fun f => f.2.2)).sum
           - (((ditherColorRow contrast wb rows cols y x d pxs).1).map
               (fun px => (px.getD 2 0 : ℚ))).sum) := by
  intro pxs
  induction pxs with
  | nil => intro x d; simp [ditherColorRow, colorFloats]
  | cons p rest ih =>
    intro x d
    simp only [ditherColorRow, colorFloats, List.map_cons, List.sum_cons]
    rw [ih]
    rw [ditherColorPx_snd]
    simp only [Prod.mk.injEq]
    refine ⟨by ring, by ring, by ring⟩

/-- Residual conservation for the whole image scan: the three `delta`
accumulators carry across row boundaries, so at the end of the scan each
channel's `delta` equals its initial value plus the total float sum minus
the total stored sum. -/
theorem ditherColorRows_delta (contrast wb : List ℚ) (rows cols : Nat) :
    ∀ (rowsData : List (List (List Nat))) (y : Nat) (d : ℚ × ℚ × ℚ),
      (ditherColorRows contrast wb rows cols y d rowsData).2 =
        (d.1 + ((colorFloatsRows contrast wb rows cols y rowsData).map (fun f => f.1)).sum
           - ((((ditherColorRows contrast wb rows cols y d rowsData).1).flatten).map
               (fun px => (px.getD 0 0 : ℚ))).sum,
         d.2.1 + ((colorFloatsRows contrast wb rows cols y rowsData).map (fun f => f.2.1)).sum
           - ((((ditherColorRows contrast wb rows cols y d rowsData).1).flatten).map
               (fun px => (px.getD 1 0 : ℚ))).sum,
         d.2.2 + ((colorFloatsRows contrast wb rows cols y rowsData).map (fun f => f.2.2)).sum
           - ((((ditherColorRows contrast wb rows cols y d rowsData).1).flatten).map
               (fun px => (px.getD 2 0 : ℚ))).sum) := by
  intro rowsData
  induction rowsData with
  | nil => intro y d; simp [ditherColorRows, colorFloatsRows]
  | cons r rest ih =>
    intro y d
    simp only [ditherColorRows, colorFloatsRows, List.map_append, List.sum_append,
      List.flatten_cons]
    rw [ih]
    rw [ditherColorRow_delta]
    simp only [Prod.mk.injEq]
    refine ⟨by ring, by ring, by ring⟩

/-! ### Claim theorems -/

theorem eccPassSpec_holds (ops : CVOps) (inp : AlignInputs) (st : AlignState)
    (cap : Nat) (rough : Bool) : eccPassSpec ops inp st cap rough :=
  ⟨rfl, rfl, rfl, rfl, rfl, rfl, rfl, rfl, rfl, rfl, rfl,
    match_transform_fst ops inp st cap rough⟩

/-- C1: on distinct source and reference, a completed run performs exactly
two ECC passes over the grayscale images — a rough pass capped at 256 px on
the longer side with iteration bound 25 / tolerance 0.01, then a final pass
capped at 2048 px (or the full source resolution under the full-resolution
flag) with iteration bound 50 / tolerance 0.001; each pass downscales
(area-average) only when the longer side exceeds its cap, masks 255 exactly
on the ROI scaled by the same ratio, and multiplies the transform's two
translation components by the ratio before the solve and divides them by it
afterwards, leaving the other four entries unscaled. -/
theorem C1_two_ecc_passes (ops : CVOps) (inp : AlignInputs) (st0 : AlignState)
    (p : Published) (tr : List Event)
    (hneq : inp.refcolor.id ≠ inp.srccolor.id)
    (h : Task_Align.task ops inp st0 = (some p, tr)) :
    C1prop ops inp st0 tr := by
  obtain ⟨t1, t2, h1, h2, hp, htr⟩ := task_success_cases ops inp st0 p tr hneq h
  refine ⟨t1, t2, h1, h2, ?_, ?_, ?_, eccPassSpec_holds ops inp (stStart inp st0) 256 true,
    eccPassSpec_holds ops inp (stAfterWB ops inp st0 t1) (finalCap inp) false, ?_, ?_⟩
  · rw [htr]
    exact eccEvents_successTrace ops inp st0 t1
  · exact match_transform_snd ops inp (stStart inp st0) 256 true
  · exact match_transform_snd ops inp (stAfterWB ops inp st0 t1) (finalCap inp) false
  · intro hfr
    unfold finalCap
    rw [if_pos hfr]
  · intro hfr
    simp [finalCap, hfr]

theorem C1_two_ecc_passes_witness :
    inpW.refcolor.id ≠ inpW.srccolor.id ∧ C1prop opsOk inpW Task_Align.construct trW :=
  ⟨by decide, C1_two_ecc_passes opsOk inpW Task_Align.construct pW trW (by decide) rfl⟩

/-- C2: when the source color task is the same task object as the reference
color task, the published result is exactly the source image, the numeric
state is untouched, the dependency references are dropped, and the trace is
empty — no registration, contrast fit, white-balance fit or photometric
application is executed. -/
theorem C2_identity_short_circuit (ops : CVOps) (inp : AlignInputs) (st0 : AlignState)
    (hid : inp.refcolor.id = inp.srccolor.id) :
    Task_Align.task ops inp st0 =
      (some { state := st0, result := some inp.srccolor.img, refs := droppedRefs }, []) := by
  unfold Task_Align.task
  rw [if_pos hid]

theorem C2_identity_short_circuit_witness :
    inpSame.refcolor.id = inpSame.srccolor.id ∧
    Task_Align.task opsOk inpSame Task_Align.construct =
      (some { state := Task_Align.construct, result := some inpSame.srccolor.img,
              refs := droppedRefs }, []) :=
  ⟨rfl, C2_identity_short_circuit opsOk inpSame Task_Align.construct rfl⟩

/-- C3: on distinct images the output is the cubic-interpolated,
border-reflected warp of the full-resolution color source by the solved
transform with the `WARP_INVERSE_MAP` flag set (the `inverse=false`
convention consistent with how ECC solved it), followed — when at least one
photometric correction is enabled — by the per-pixel contrast/white-balance
application with error-diffusion dithering: every stored channel value is
clamped to `[0, 255]` and each channel's rounding residual is carried
forward to the next pixel in scan order (the conservation equation). -/
theorem C3_output_pipeline (ops : CVOps) (inp : AlignInputs) (st0 : AlignState)
    (p : Published) (tr : List Event)
    (hneq : inp.refcolor.id ≠ inp.srccolor.id)
    (h : Task_Align.task ops inp st0 = (some p, tr)) :
    C3prop ops inp st0 p := by
  obtain ⟨t1, t2, h1, h2, hp, htr⟩ := task_success_cases ops inp st0 p tr hneq h
  subst hp
  refine ⟨⟨t1, t2, h1, h2, rfl, rfl, ?_⟩, ?_, ?_⟩
  · intro hfl row hrow px hpx v hv
    have htr2 : taskResult ops inp st0 t1 t2 =
        apply_contrast_whitebalance (finalState ops inp st0 t1 t2)
          (apply_transform ops (finalState ops inp st0 t1 t2) inp.srccolor.img false) := by
      simp [taskResult, hfl]
    rw [htr2] at hrow
    exact apply_contrast_whitebalance_le _ _ row hrow px hpx v hv
  · intro st img hch
    unfold apply_contrast_whitebalance
    rw [if_neg hch]
  · exact fun contrast wb rows cols rowsData y d =>
      ditherColorRows_delta contrast wb rows cols rowsData y d

theorem C3_output_pipeline_witness :
    inpW.refcolor.id ≠ inpW.srccolor.id ∧ C3prop opsOk inpW Task_Align.construct pW :=
  ⟨by decide, C3_output_pipeline opsOk inpW Task_Align.construct pW trW (by decide) rfl⟩

/-- C4: with contrast correction enabled, on distinct images the contrast
model published by the run is the SVD least-squares solution of the system
built from a 64×64 area-resampled grid of the ROI of the reference and of
the transform-applied grayscale source, whose row `y*64+x` predicts the
pixel ratio `ref/src` from the regressors `[1, x̂, x̂², ŷ, ŷ²]` with
`x̂ = (x - cols/2)/cols` and `ŷ = (y - rows/2)/rows` normalized relative to
the image center. -/
theorem C4_contrast_fit (ops : CVOps) (inp : AlignInputs) (st0 : AlignState)
    (p : Published) (tr : List Event)
    (hneq : inp.refcolor.id ≠ inp.srccolor.id)
    (hc : inp.flags.no_contrast = false)
    (h : Task_Align.task ops inp st0 = (some p, tr)) :
    C4prop ops inp st0 p := by
  obtain ⟨t1, t2, h1, h2, hp, htr⟩ := task_success_cases ops inp st0 p tr hneq h
  subst hp
  refine ⟨t1, h1, ?_, ?_⟩
  · show (stAfterWB ops inp st0 t1).contrast = _
    rw [stAfterWB_contrast, stAfterContrast_contrast_of ops inp st0 t1 hc]
    rfl
  · intro y x hy hx
    exact ⟨match_contrast_positions_get _ y x hy hx,
      match_contrast_targets_get _ _ y x hy hx⟩

theorem C4_contrast_fit_witness :
    inpW.refcolor.id ≠ inpW.srccolor.id ∧ inpW.flags.no_contrast = false ∧
    C4prop opsOk inpW Task_Align.construct pW :=
  ⟨by decide, rfl, C4_contrast_fit opsOk inpW Task_Align.construct pW trW (by decide) rfl rfl⟩

/-- C5: with white-balance correction enabled, on distinct images the
white-balance model published by the run is the SVD least-squares solution
of one joint system over the same 64×64 color grid, sampled from the source
with the solved transform and the current contrast correction already
applied; the system is block-diagonal by channel, each channel contributing
an independent `(offset, gain)` affine fit of the source channel to the
reference channel. -/
theorem C5_whitebalance_fit (ops : CVOps) (inp : AlignInputs) (st0 : AlignState)
    (p : Published) (tr : List Event)
    (hneq : inp.refcolor.id ≠ inp.srccolor.id)
    (hw : inp.flags.no_whitebalance = false)
    (h : Task_Align.task ops inp st0 = (some p, tr)) :
    C5prop ops inp st0 p := by
  obtain ⟨t1, t2, h1, h2, hp, htr⟩ := task_success_cases ops inp st0 p tr hneq h
  subst hp
  refine ⟨t1, h1, stAfterContrast_roi ops inp st0 t1,
    stAfterContrast_transformation ops inp st0 t1, ?_, ?_, ?_⟩
  · show (stAfterWB ops inp st0 t1).whitebalance = _
    rw [stAfterWB_whitebalance_of ops inp st0 t1 hw]
    rfl
  · intro hc
    exact stAfterContrast_contrast_of ops inp st0 t1 hc
  · intro y x hy hx
    refine ⟨?_, ?_, ?_, ?_, ?_, ?_⟩
    · simpa using match_whitebalance_factors_get _ y x 0 hy hx (by omega)
    · simpa using match_whitebalance_factors_get _ y x 1 hy hx (by omega)
    · simpa using match_whitebalance_factors_get _ y x 2 hy hx (by omega)
    · simpa using match_whitebalance_targets_get _ y x 0 hy hx (by omega)
    · simpa using match_whitebalance_targets_get _ y x 1 hy hx (by omega)
    · simpa using match_whitebalance_targets_get _ y x 2 hy hx (by omega)

theorem C5_whitebalance_fit_witness :
    inpW.refcolor.id ≠ inpW.srccolor.id ∧ inpW.flags.no_whitebalance = false ∧
    C5prop opsOk inpW Task_Align.construct pW :=
  ⟨by decide, rfl, C5_whitebalance_fit opsOk inpW Task_Align.construct pW trW (by decide) rfl rfl⟩

/-- C6: when crop information from a border-padding loader is supplied, the
ROI used by the run is the padded rectangle shrunk symmetrically: origin
`((padded_width - original_width)/2, (padded_height - original_height)/2)`
(truncating integer division) and size `(padded_width - (padded_width -
original_width), padded_height - (padded_height - original_height))`. -/
theorem C6_roi_crop (ops : CVOps) (inp : AlignInputs) (st0 : AlignState)
    (p : Published) (tr : List Event) (ci : Task_LoadImg)
    (hneq : inp.refcolor.id ≠ inp.srccolor.id)
    (hci : inp.cropinfo = some ci)
    (h : Task_Align.task ops inp st0 = (some p, tr)) :
    p.state.roi =
      { x := Int.tdiv ((ci.img.cols : Int) - (ci.orig_width : Int)) 2
        y := Int.tdiv ((ci.img.rows : Int) - (ci.orig_height : Int)) 2
        width := (ci.img.cols : Int) - ((ci.img.cols : Int) - (ci.orig_width : Int))
        height := (ci.img.rows : Int) - ((ci.img.rows : Int) - (ci.orig_height : Int)) } := by
  obtain ⟨t1, t2, h1, h2, hp, htr⟩ := task_success_cases ops inp st0 p tr hneq h
  subst hp
  show (stAfterWB ops inp st0 t1).roi = _
  rw [stAfterWB_roi]
  unfold computeRoi
  rw [hci]

theorem C6_roi_crop_witness :
    inpCrop.refcolor.id ≠ inpCrop.srccolor.id ∧ inpCrop.cropinfo = some ciW ∧
    pCrop.state.roi =
      { x := Int.tdiv ((ciW.img.cols : Int) - (ciW.orig_width : Int)) 2
        y := Int.tdiv ((ciW.img.rows : Int) - (ciW.orig_height : Int)) 2
        width := (ciW.img.cols : Int) - ((ciW.img.cols : Int) - (ciW.orig_width : Int))
        height := (ciW.img.rows : Int) - ((ciW.img.rows : Int) - (ciW.orig_height : Int)) } :=
  ⟨by decide, rfl,
    C6_roi_crop opsOk inpCrop Task_Align.construct pCrop trCrop ciW (by decide) rfl rfl⟩

/-- C7: the affine transform is created as the 2×3 identity at construction;
when an initial-guess neighbor is supplied its solved transform is copied
over the identity as the starting transform before any geometric pass, and
otherwise the identity is the starting point — the run's first ECC
invocation starts from exactly that seeded transform. -/
theorem C7_transform_seeding (ops : CVOps) (inp : AlignInputs) (p : Published)
    (tr : List Event)
    (hneq : inp.refcolor.id ≠ inp.srccolor.id)
    (h : Task_Align.task ops inp Task_Align.construct = (some p, tr)) :
    C7prop inp tr := by
  obtain ⟨t1, t2, h1, h2, hp, htr⟩ :=
    task_success_cases ops inp Task_Align.construct p tr hneq h
  refine ⟨rfl, ?_, ?_, ?_⟩
  · intro g hg
    simp [stStart, seedTransform, hg]
  · intro hg
    simp [stStart, seedTransform, hg]
  · refine ⟨(roughPass ops inp Task_Align.construct).2,
      fitEvents inp ++ [Event.ecc (finalPass ops inp Task_Align.construct t1).2,
        Event.warpColor] ++ photoEvents inp, ?_, ?_⟩
    · rw [htr]
      rfl
    · have hs : (roughPass ops inp Task_Align.construct).2 =
          mtEvent ops inp (stStart inp Task_Align.construct) 256 true :=
        match_transform_snd ops inp (stStart inp Task_Align.construct) 256 true
      rw [hs]
      rfl

theorem C7_transform_seeding_witness :
    inpGuess.refcolor.id ≠ inpGuess.srccolor.id ∧ C7prop inpGuess trGuess :=
  ⟨by decide, C7_transform_seeding opsOk inpGuess pGuess trGuess (by decide) rfl⟩

/-- C8: after a run completes normally (either the identity short-circuit
or the full registration path) every dependency reference — reference
grayscale and color, source grayscale and color, initial guess, crop info —
is dropped, while the task's own published result buffer is kept. -/
theorem C8_drops_refs (ops : CVOps) (inp : AlignInputs) (st0 : AlignState)
    (p : Published) (tr : List Event)
    (h : Task_Align.task ops inp st0 = (some p, tr)) :
    p.refs.refgray = none ∧ p.refs.refcolor = none ∧ p.refs.srcgray = none ∧
    p.refs.srccolor = none ∧ p.refs.initial_guess = none ∧ p.refs.cropinfo = none ∧
    p.result.isSome = true := by
  by_cases hid : inp.refcolor.id = inp.srccolor.id
  · unfold Task_Align.task at h
    rw [if_pos hid] at h
    obtain rfl := (Option.some.inj (congrArg Prod.fst h)).symm
    exact ⟨rfl, rfl, rfl, rfl, rfl, rfl, rfl⟩
  · obtain ⟨t1, t2, h1, h2, hp, htr⟩ := task_success_cases ops inp st0 p tr hid h
    subst hp
    exact ⟨rfl, rfl, rfl, rfl, rfl, rfl, rfl⟩

theorem C8_drops_refs_witness :
    pW.refs.refgray = none ∧ pW.refs.refcolor = none ∧ pW.refs.srcgray = none ∧
    pW.refs.srccolor = none ∧ pW.refs.initial_guess = none ∧ pW.refs.cropinfo = none ∧
    pW.result.isSome = true :=
  C8_drops_refs opsOk inpW Task_Align.construct pW trW rfl

/-- C9: failure of the ECC solver to converge in either geometric pass
makes the whole run fail — no result is published and nothing is silently
defaulted — and a successful run's published transform is exactly the final
pass's solved transform. -/
theorem C9_failure_propagates (ops : CVOps) (inp : AlignInputs) (st0 : AlignState)
    (hneq : inp.refcolor.id ≠ inp.srccolor.id) :
    C9prop ops inp st0 := by
  refine ⟨task_fst_rough_none ops inp st0 hneq,
    fun t1 h1 h2 => task_fst_final_none ops inp st0 t1 hneq h1 h2, ?_⟩
  intro p tr h
  obtain ⟨t1, t2, h1, h2, hp, htr⟩ := task_success_cases ops inp st0 p tr hneq h
  subst hp
  exact ⟨t1, t2, h1, h2, rfl, rfl⟩

theorem C9_failure_propagates_witness :
    inpW.refcolor.id ≠ inpW.srccolor.id ∧ C9prop opsFailRough inpW Task_Align.construct :=
  ⟨by decide, C9_failure_propagates opsFailRough inpW Task_Align.construct (by decide)⟩

/-- C10: without a crop-info dependency, the ROI used by the run is the
full rectangle of the color source: origin `(0, 0)` with the source
image's width and height. -/
theorem C10_roi_full (ops : CVOps) (inp : AlignInputs) (st0 : AlignState)
    (p : Published) (tr : List Event)
    (hneq : inp.refcolor.id ≠ inp.srccolor.id)
    (hci : inp.cropinfo = none)
    (h : Task_Align.task ops inp st0 = (some p, tr)) :
    p.state.roi =
      { x := 0, y := 0, width := (inp.srccolor.img.cols : Int)
        height := (inp.srccolor.img.rows : Int) } := by
  obtain ⟨t1, t2, h1, h2, hp, htr⟩ := task_success_cases ops inp st0 p tr hneq h
  subst hp
  show (stAfterWB ops inp st0 t1).roi = _
  rw [stAfterWB_roi]
  unfold computeRoi
  rw [hci]

theorem C10_roi_full_witness :
    inpW.refcolor.id ≠ inpW.srccolor.id ∧ inpW.cropinfo = none ∧
    pW.state.roi =
      { x := 0, y := 0, width := (inpW.srccolor.img.cols : Int)
        height := (inpW.srccolor.img.rows : Int) } :=
  ⟨by decide, rfl, C10_roi_full opsOk inpW Task_Align.construct pW trW (by decide) rfl rfl⟩
